import Mathlib

/-!
# Verification of the retail-media creative builder core

Shallow embedding of the compliance validator, the tesco rule toolbox, the
graph routers and the deterministic layout planner of the repository, with
theorems settling the specification claims about them.

Conventions of the embedding:
* Python floats are modelled as rationals (`ℚ`); every numeric literal in the
  embedded code is an exact decimal and no comparison in any claim sits within
  float rounding distance of its threshold.
* Python dictionaries that carry a fixed set of keys are modelled as structures
  whose optional keys are `Option` fields; a dictionary that may be absent or
  Python-falsy (empty) is modelled as `Option` of its structure, `none`
  standing for "absent or empty".
* The safe-zone dictionary is modelled as an association list because the
  source reads its entries through `dict.get(key, 0.0)` with a default.
* Wall-clock fields (`timings_ms`, `checked_at`) and the free-form `meta`
  diagnostic dictionaries of issues are omitted: no claim mentions them.
-/

namespace CreativeBuilder

/-- Normalized center-based rectangle `{x, y, w, h}` (schema `RectN` /
the plain rect dicts of `compliance_agent.py`). -/
structure RectQ where
  x : ℚ
  y : ℚ
  w : ℚ
  h : ℚ
deriving DecidableEq, Repr

/-- Safe-zone margins as a structure (schema `SafeZones` of
`layout_schema.py`, used by the layout planner). -/
structure SafeZonesQ where
  top : ℚ
  bottom : ℚ
  left : ℚ
  right : ℚ
deriving DecidableEq, Repr

/-- The `safe_zones` dictionary consumed by `compliance_agent.py`, read
through `safe.get(key, 0.0)`: an association list of margins. -/
abbrev SafeDict := List (String × ℚ)

/-- `d.get(k, dflt)` on a margin dictionary. -/
def dictGet (d : SafeDict) (k : String) (dflt : ℚ) : ℚ :=
  match d.find? (fun p => p.1 = k) with
  | some p => p.2
  | none => dflt

/-- `compliance_agent._rect_inside_safe`: all four derived edges of the
center-based rect must lie within the inset `[left, 1-right] × [top, 1-bottom]`. -/
def rect_inside_safe (rect : RectQ) (safe : SafeDict) : Bool :=
  let left := rect.x - rect.w / 2
  let right := rect.x + rect.w / 2
  let top := rect.y - rect.h / 2
  let bottom := rect.y + rect.h / 2
  decide (left ≥ dictGet safe "left" 0) &&
    decide (right ≤ 1 - dictGet safe "right" 0) &&
    decide (top ≥ dictGet safe "top" 0) &&
    decide (bottom ≤ 1 - dictGet safe "bottom" 0)

/-- `compliance_agent._overlap`: area of the axis-aligned intersection of two
center-based rects, `0` when the derived edge intervals do not properly overlap. -/
def overlap (a b : RectQ) : ℚ :=
  let ax1 := a.x - a.w / 2
  let ax2 := a.x + a.w / 2
  let ay1 := a.y - a.h / 2
  let ay2 := a.y + a.h / 2
  let bx1 := b.x - b.w / 2
  let bx2 := b.x + b.w / 2
  let by1 := b.y - b.h / 2
  let by2 := b.y + b.h / 2
  let ix1 := max ax1 bx1
  let iy1 := max ay1 by1
  let ix2 := min ax2 bx2
  let iy2 := min ay2 by2
  if ix2 ≤ ix1 ∨ iy2 ≤ iy1 then 0 else (ix2 - ix1) * (iy2 - iy1)

/-- `compliance_agent._area`: `max(0, w) * max(0, h)`. -/
def area (rect : RectQ) : ℚ :=
  max 0 rect.w * max 0 rect.h

/-! ## Compliance result model (`schemas/compliance_schema.py`) -/

/-- `ComplianceIssue` of `compliance_schema.py` (the `meta` dictionary of
heterogeneous diagnostics is omitted). -/
structure ComplianceIssue where
  code : String
  severity : String
  message : String
  layer_id : Option String := none
  fix_hint : Option String := none
deriving DecidableEq, Repr

/-- `ComplianceResult` of `compliance_schema.py`. -/
structure ComplianceResult where
  status : String
  issues : List ComplianceIssue := []
  score : ℚ := 1
  notes : List String := []
deriving DecidableEq, Repr

/-- A layer dictionary as consumed by `run_compliance_checks`:
`l.get("critical", True)`, `l.get("rect")`, `l.get("type")`,
`(l.get("style") or {}).get("font_weight", 700)`.  `rect := none` models a
missing or Python-falsy (empty) rect dictionary. -/
structure LayerDict where
  id : Option String := none
  type : Option String := none
  critical : Option Bool := none
  rect : Option RectQ := none
  font_weight : Option ℚ := none
deriving DecidableEq, Repr

/-- The layout dictionary consumed by `run_compliance_checks`
(`layout_json.get("safe_zones", {})`, `layout_json.get("layers", []) or []`). -/
structure CheckLayout where
  safe_zones : SafeDict := []
  layers : List LayerDict := []
deriving DecidableEq, Repr

/-- The all-zero rect standing for the `{"w": 0, "h": 0}` / `{}` defaults the
source substitutes for a missing rect dictionary in the packshot and overlap
rules.  (On a genuinely key-less rect dictionary the source would raise
`KeyError` at `rect["x"]`; the claims under verification never reach that
corner, and the zero rect yields zero area and zero overlap.) -/
def zeroRect : RectQ := ⟨0, 0, 0, 0⟩

/-- The `RECT_MISSING` hard-fail issue of rule 1. -/
def rect_missing_issue (lid : Option String) : ComplianceIssue :=
  { code := "RECT_MISSING", severity := "HARD_FAIL",
    message := "Layer rect missing.", layer_id := lid }

/-- The `OUTSIDE_SAFEZONE` hard-fail issue of rule 1. -/
def outside_safezone_issue (l : LayerDict) : ComplianceIssue :=
  { code := "OUTSIDE_SAFEZONE", severity := "HARD_FAIL",
    message := "Critical layer " ++ l.type.getD "None" ++
      " extends outside safe zone.",
    layer_id := l.id,
    fix_hint := some "Shrink/move the layer to fit inside safe_zones." }

/-- Rule 1 contribution of a single layer (safe-zone containment loop of
`run_compliance_checks`): skipped when `critical` is explicitly falsy
(`if not l.get("critical", True): continue`), `RECT_MISSING` on a missing
rect, `OUTSIDE_SAFEZONE` on an out-of-zone rect. -/
def safezoneContrib (safe : SafeDict) (l : LayerDict) : List ComplianceIssue :=
  if l.critical.getD true = false then []
  else
    match l.rect with
    | none => [rect_missing_issue l.id]
    | some rect =>
        if rect_inside_safe rect safe then []
        else [outside_safezone_issue l]

/-- Rule 1 of `run_compliance_checks`: safe-zone containment for critical layers. -/
def safezoneIssues (safe : SafeDict) (layers : List LayerDict) : List ComplianceIssue :=
  layers.flatMap (safezoneContrib safe)

/-- The text-bearing layer types of rule 2. -/
def text_types : List String := ["headline", "subhead", "cta", "legal", "badge"]

/-- Rule 2 of `run_compliance_checks`: minimum font weight 600 (400 for
`legal`), below threshold is a `WARN`. -/
def fontWeightIssues (layers : List LayerDict) : List ComplianceIssue :=
  layers.flatMap fun l =>
    if l.type.getD "" ∈ text_types then
      let font_weight := l.font_weight.getD 700
      let min_weight : ℚ := if l.type.getD "" = "legal" then 400 else 600
      if font_weight < min_weight then
        [{ code := "FONT_TOO_LIGHT", severity := "WARN",
           message := "Font weight too light for " ++ l.type.getD "None" ++ ".",
           layer_id := l.id,
           fix_hint := some "Increase font_weight." }]
      else []
    else []

/-- The `by_type["packshot"]` bucket: layers whose `type` is `"packshot"`. -/
def packshotsOf (layers : List LayerDict) : List LayerDict :=
  layers.filter fun l => l.type.getD "unknown" = "packshot"

/-- Python `max(packshots, key=lambda x: _area(x.get("rect", {"w":0,"h":0})))`:
the first layer of maximal rect area (Python `max` keeps the earliest
maximum). -/
def argmaxArea (ps : List LayerDict) : Option LayerDict :=
  ps.foldl
    (fun acc l =>
      match acc with
      | none => some l
      | some b =>
          if area (l.rect.getD zeroRect) > area (b.rect.getD zeroRect) then some l
          else some b)
    none

/-- Rule 3 of `run_compliance_checks`: packshot existence (`HARD_FAIL`)
and reference-packshot minimum area `0.08` (`WARN`). -/
def packshotIssues (layers : List LayerDict) : List ComplianceIssue :=
  match argmaxArea (packshotsOf layers) with
  | none =>
      [{ code := "PACKSHOT_MISSING", severity := "HARD_FAIL",
         message := "Packshot layer missing.",
         fix_hint := some "Add packshot layer inside safe_zone." }]
  | some p =>
      let pa := area (p.rect.getD zeroRect)
      if pa < 8/100 then
        [{ code := "PACKSHOT_TOO_SMALL", severity := "WARN",
           message := "Packshot area seems too small.", layer_id := p.id,
           fix_hint := some "Increase packshot size or make it more prominent." }]
      else []

/-- The layer types checked against the reference packshot in rule 4. -/
def overlap_types : List String := ["cta", "headline", "subhead", "badge"]

/-- Rule 4 body for one layer: no issue when the overlap is `≤ 0`; otherwise
the fraction `overlap / max(area, 1e-9)` yields `HARD_FAIL` above `0.35`,
`WARN` above `0.15`, and nothing below. -/
def overlapIssueFor (prect rect : RectQ) (ltype : String) (lid : Option String) :
    Option ComplianceIssue :=
  let ov := overlap prect rect
  if ov ≤ 0 then none
  else
    let frac := ov / max (area rect) (1 / 1000000000)
    if frac > 35/100 then
      some { code := "OVERLAP_TEXT_PACKSHOT", severity := "HARD_FAIL",
             message := ltype ++ " is heavily overlapped by packshot.",
             layer_id := lid,
             fix_hint := some "Move text/CTA away from packshot or reduce packshot size." }
    else if frac > 15/100 then
      some { code := "OVERLAP_TEXT_PACKSHOT", severity := "WARN",
             message := ltype ++ " overlaps with packshot.", layer_id := lid,
             fix_hint := some "Adjust placement to avoid overlap." }
    else none

/-- Rule 4 of `run_compliance_checks`: the reference packshot against every
`cta`/`headline`/`subhead`/`badge` layer. -/
def overlapIssues (layers : List LayerDict) : List ComplianceIssue :=
  match argmaxArea (packshotsOf layers) with
  | none => []
  | some p =>
      layers.filterMap fun l =>
        if l.type.getD "" ∈ overlap_types then
          overlapIssueFor (p.rect.getD zeroRect) (l.rect.getD zeroRect)
            (l.type.getD "None") l.id
        else none

/-- Lines 210-212 of `compliance_agent.py`:
`status = "HARD_FAIL" if hard else ("WARN" if issues else "PASS")`. -/
def status_of_issues (issues : List ComplianceIssue) : String :=
  if issues.any fun i => i.severity = "HARD_FAIL" then "HARD_FAIL"
  else if issues.isEmpty then "PASS" else "WARN"

/-- `compliance_agent.run_compliance_checks`: short-circuits with the single
`SAFEZONE_MISSING` issue and score `0.0` when `safe_zones` is absent or empty,
otherwise accumulates the four rule segments in source order, derives the
status from the issue severities and the score from `1.0` minus `0.25` per
`HARD_FAIL` and `0.08` per `WARN`, clamped to `[0, 1]`. -/
def run_compliance_checks (layout : CheckLayout) : ComplianceResult :=
  if layout.safe_zones = [] then
    { status := "HARD_FAIL",
      issues := [{ code := "SAFEZONE_MISSING", severity := "HARD_FAIL",
                   message := "safe_zones missing from layout spec" }],
      score := 0 }
  else
    let issues :=
      safezoneIssues layout.safe_zones layout.layers ++
        fontWeightIssues layout.layers ++
        packshotIssues layout.layers ++
        overlapIssues layout.layers
    let status := status_of_issues issues
    let score :=
      issues.foldl (fun s i => s - (if i.severity = "HARD_FAIL" then 25/100 else 8/100)) 1
    { status := status, issues := issues, score := max 0 (min 1 score),
      notes := ["Deterministic compliance checks executed (safe-zone, font, packshot, overlap)."] }

/-! ## Tool-based checks (`tools/compliance/checks.py`, `tesco_rules.py`,
`copy_claims.py`) -/

/-- `checks.Issue` dataclass (the optional `meta` diagnostic dictionary is
omitted). -/
structure Issue where
  code : String
  severity : String
  message : String
  field : Option String := none
deriving DecidableEq, Repr

/-- `checks.resolve_status`: `HARD_FAIL` if any issue has that severity, else
`WARN` if any issue has severity `WARN`, else `PASS`. -/
def resolve_status (issues : List Issue) : String :=
  if issues.any fun i => i.severity = "HARD_FAIL" then "HARD_FAIL"
  else if issues.any fun i => i.severity = "WARN" then "WARN"
  else "PASS"

/-- Python truthiness of an optional string: present and non-empty. -/
def strTruthy : Option String → Bool
  | none => false
  | some s => decide (s ≠ "")

/-- Python `a or b` on optional strings: `b` when `a` is absent or empty. -/
def pyOrStr (a : Option String) (b : String) : String :=
  match a with
  | none => b
  | some s => if s = "" then b else s

/-- The `elements.value_tile` dictionary (`some` models a Python-truthy,
i.e. non-empty, dictionary). -/
structure ValueTileDict where
  text : Option String := none
deriving DecidableEq, Repr

/-- The layout dictionary as read by the tesco rule toolbox through
`_get(layout, "a.b.c")` paths.  Each nested optional path is flattened:
the outer `Option` of `cta_anchor`, `tag_anchor` and `packshot_padding`
models the truthiness of the containing element dictionary,
`typography_min_font_px` is `none` when `typography` or its key is absent. -/
structure LayoutDict where
  safe_zones : SafeDict := []
  value_tile : Option ValueTileDict := none
  typography_min_font_px : Option ℚ := none
  cta_anchor : Option (Option String) := none
  tag_anchor : Option (Option String) := none
  packshot_padding : Option (Option ℚ) := none
deriving DecidableEq, Repr

/-- `tesco_rules.check_value_tile_rules`: a present value tile with missing
or empty text is a `HARD_FAIL`. -/
def check_value_tile_rules (layout : LayoutDict) : List Issue :=
  match layout.value_tile with
  | none => []
  | some vt =>
      if strTruthy vt.text then []
      else
        [{ code := "VALUE_TILE_MISSING_TEXT", severity := "HARD_FAIL",
           message := "Value tile present but text missing.",
           field := some "layout.elements.value_tile.text" }]

/-- `tesco_rules.check_social_safe_zones`: absent/empty safe zones are a
`WARN` (note: only a `WARN` here, unlike `run_compliance_checks`). -/
def check_social_safe_zones (layout : LayoutDict) : List Issue :=
  if layout.safe_zones = [] then
    [{ code := "SAFE_ZONES_MISSING", severity := "WARN",
       message := "Safe zones not specified in layout. Risk of platform UI overlap.",
       field := some "layout.safe_zones" }]
  else []

/-- `tesco_rules.check_font_sizes`: missing `typography.min_font_px` is a
`WARN`, a value below `12` is a `HARD_FAIL`. -/
def check_font_sizes (layout : LayoutDict) : List Issue :=
  match layout.typography_min_font_px with
  | none =>
      [{ code := "FONT_MIN_NOT_SET", severity := "WARN",
         message := "Minimum font size not specified. Might violate readability rules.",
         field := some "layout.typography.min_font_px" }]
  | some min_font =>
      if min_font < 12 then
        [{ code := "FONT_TOO_SMALL", severity := "HARD_FAIL",
           message := "Minimum font size too small (<12px).",
           field := some "layout.typography.min_font_px" }]
      else []

/-- `tesco_rules.check_cta_tag_overlaps`: a `WARN` when CTA and tag both
declare the same truthy anchor. -/
def check_cta_tag_overlaps (layout : LayoutDict) : List Issue :=
  match layout.cta_anchor, layout.tag_anchor with
  | some cta_anchor, some tag_anchor =>
      if strTruthy cta_anchor ∧ strTruthy tag_anchor ∧ cta_anchor = tag_anchor then
        [{ code := "CTA_TAG_POTENTIAL_OVERLAP", severity := "WARN",
           message := "CTA and tag share the same anchor; potential overlap risk.",
           field := some "layout.elements" }]
      else []
  | _, _ => []

/-- `tesco_rules.check_packshot_spacing`: missing `min_padding_px` on a
present packshot element is a `WARN`, a value below `8` a `HARD_FAIL`. -/
def check_packshot_spacing (layout : LayoutDict) : List Issue :=
  match layout.packshot_padding with
  | none => []
  | some pad =>
      match pad with
      | none =>
          [{ code := "PACKSHOT_PADDING_MISSING", severity := "WARN",
             message := "Packshot min padding not set; may violate spacing rules.",
             field := some "layout.elements.packshot.min_padding_px" }]
      | some p =>
          if p < 8 then
            [{ code := "PACKSHOT_PADDING_TOO_LOW", severity := "HARD_FAIL",
               message := "Packshot padding too low (<8px).",
               field := some "layout.elements.packshot.min_padding_px" }]
          else []

/-- `copy_claims.detect_copy_issues`.  The two regex batteries
(`PRICE_PATTERNS`, `COMPETITOR_PATTERNS`, applied through `re.search` with
`IGNORECASE`) are abstracted as the boolean oracles `priceMatch` and
`compMatch` over the stripped text; empty stripped copy short-circuits with
the single `COPY_EMPTY` warning before any pattern runs. -/
def detect_copy_issues (priceMatch compMatch : String → Bool) (copy_text : String) :
    List Issue :=
  let txt := copy_text.trim
  if txt = "" then
    [{ code := "COPY_EMPTY", severity := "WARN",
       message := "Copy text is empty or missing.", field := some "copy" }]
  else
    (if priceMatch txt then
      [{ code := "COPY_PRICE_CLAIM", severity := "WARN",
         message := "Copy appears to contain a price/discount claim.",
         field := some "copy" }]
    else []) ++
    (if compMatch txt then
      [{ code := "COPY_COMPETITOR_OR_GUARANTEE", severity := "WARN",
         message := "Copy appears to include competitor/guarantee style claims.",
         field := some "copy" }]
    else [])

/-! ## Turn state and the compliance stage (`agents/nodes_dummy.py`,
`agents/compliance_agent.py`) -/

/-- The turn-state dictionary, flattened to the fields the compliance stage
and the routers read and write.  Nested paths of the Python dictionary are
flattened one field per leaf (`outputs.layout.decision`,
`pipeline.tool_loops`, `pipeline.routing.copy_result`, ...); wall-clock
timing entries are omitted. -/
structure TurnState where
  outputs_layout_decision : Option String := none
  outputs_layout_spec : Option LayoutDict := none
  outputs_copy_headline : Option String := none
  outputs_copy_caption : Option String := none
  outputs_compliance_status : Option String := none
  outputs_compliance_issues : List Issue := []
  compliance_result : Option String := none
  pipeline_tool_loops : Option ℕ := none
  tool_loops : Option ℕ := none
  max_tool_loops : Option ℕ := none
  session_max_tool_loops : Option ℕ := none
  routing_copy_result : Option String := none
  routing_layout_result : Option String := none
  routing_compliance_result : Option String := none
  agents_run : List String := []
deriving DecidableEq, Repr

/-- The payload assembled by `run_compliance_agent` (its `checked_at`
timestamp and policy tag carry no claim content and are omitted). -/
structure AgentPayload where
  status : String
  issues : List Issue
deriving DecidableEq, Repr

/-- `compliance_agent.run_compliance_agent`: pulls the layout spec and the
copy text (`headline or caption or ""`) out of the state, concatenates the
six tool check segments in source order and resolves the overall status with
`resolve_status`. -/
def run_compliance_agent (priceMatch compMatch : String → Bool) (state : TurnState) :
    AgentPayload :=
  let layout_spec := state.outputs_layout_spec.getD {}
  let copy_text := pyOrStr state.outputs_copy_headline
    (pyOrStr state.outputs_copy_caption "")
  let issues :=
    detect_copy_issues priceMatch compMatch copy_text ++
      check_value_tile_rules layout_spec ++
      check_social_safe_zones layout_spec ++
      check_font_sizes layout_spec ++
      check_cta_tag_overlaps layout_spec ++
      check_packshot_spacing layout_spec
  { status := resolve_status issues, issues := issues }

/-- `nodes_dummy.compliance_node`: runs the compliance agent, then — marked
`TEMPORARY` in the source — forces the status to `PASS` whenever the layout
stage decision was `OK` or `WARN`, and writes the (possibly forced) status
into `state["compliance_result"]`, `pipeline.routing.compliance_result` and
`outputs.compliance`. -/
def compliance_node (priceMatch compMatch : String → Bool) (state : TurnState) :
    TurnState :=
  let payload := run_compliance_agent priceMatch compMatch state
  let forced : Bool :=
    state.outputs_layout_decision.getD "" = "OK" ∨
      state.outputs_layout_decision.getD "" = "WARN"
  let status := if forced then "PASS" else payload.status
  { state with
    agents_run := state.agents_run ++ ["compliance"],
    compliance_result := some status,
    routing_compliance_result := some status,
    outputs_compliance_status := some status,
    outputs_compliance_issues := payload.issues }

/-! ## Routers (`graph/routers.py`) -/

/-- Python `a or b` on optional nonnegative integers (`0` is falsy and falls
through to the next operand, exactly as the source's `or` chains do). -/
def pyOrNat : Option ℕ → ℕ → ℕ
  | none, d => d
  | some 0, d => d
  | some (n + 1), _ => n + 1

/-- `routers._get_max_tool_loops`:
`state.get("max_tool_loops") or session_config.get("max_tool_loops") or 6`. -/
def get_max_tool_loops (s : TurnState) : ℕ :=
  pyOrNat s.max_tool_loops (pyOrNat s.session_max_tool_loops 6)

/-- `routers._get_tool_loops`:
`pipeline.get("tool_loops") or state.get("tool_loops") or 0`. -/
def get_tool_loops (s : TurnState) : ℕ :=
  pyOrNat s.pipeline_tool_loops (pyOrNat s.tool_loops 0)

/-- `routers._inc_tool_loops`: writes
`pipeline["tool_loops"] = (pipeline.get("tool_loops") or 0) + 1`. -/
def inc_tool_loops (s : TurnState) : TurnState :=
  { s with pipeline_tool_loops := some (pyOrNat s.pipeline_tool_loops 0 + 1) }

/-- Python `str.upper()`, implemented structurally (uppercase every
character) so that concrete router states evaluate inside the kernel. -/
def pyUpper (s : String) : String := String.mk (s.data.map Char.toUpper)

/-- `routers._compliance_status`: the truthy top-level `compliance_result`
uppercased, else `outputs.compliance.status or "UNKNOWN"` uppercased. -/
def compliance_status (s : TurnState) : String :=
  if strTruthy s.compliance_result then pyUpper (s.compliance_result.getD "")
  else pyUpper (pyOrStr s.outputs_compliance_status "UNKNOWN")

/-- `routers._has_hard_fail_issue`: any issue of `outputs.compliance.issues`
whose severity uppercases to `HARD_FAIL`. -/
def has_hard_fail_issue (s : TurnState) : Bool :=
  s.outputs_compliance_issues.any fun i => pyUpper i.severity = "HARD_FAIL"

/-- `routers._prefer_loop_target`: retry copy first if copy failed, else
layout if layout failed, else imageops. -/
def prefer_loop_target (s : TurnState) : String :=
  let copy_res := pyUpper (pyOrStr s.routing_copy_result "")
  let layout_res := pyUpper (pyOrStr s.routing_layout_result "")
  if copy_res = "FAIL" ∨ copy_res = "HARD_FAIL" then "copy_validator"
  else if layout_res = "FAIL" ∨ layout_res = "HARD_FAIL" then "layout_planner"
  else "imageops"

/-- The forward condition of `route_after_compliance`: status `PASS`/`WARN`
with no individual hard-fail issue. -/
def proceeds_to_export (s : TurnState) : Bool :=
  (compliance_status s = "PASS" ∨ compliance_status s = "WARN") &&
    !has_hard_fail_issue s

/-- `routers.route_after_compliance`, returning the chosen node name together
with the (possibly counter-incremented) state the Python function leaves
behind. -/
def route_after_compliance (s : TurnState) : String × TurnState :=
  if proceeds_to_export s then ("exporter", s)
  else if get_tool_loops s ≥ get_max_tool_loops s then ("summarizer", s)
  else (prefer_loop_target (inc_tool_loops s), inc_tool_loops s)

/-- `routers.route_after_copy`. -/
def route_after_copy (s : TurnState) : String × TurnState :=
  if pyUpper (pyOrStr s.routing_copy_result "") = "PASS" then ("layout_planner", s)
  else if get_tool_loops s ≥ get_max_tool_loops s then ("summarizer", s)
  else ("copy_validator", inc_tool_loops s)

/-- `routers.route_after_layout`. -/
def route_after_layout (s : TurnState) : String × TurnState :=
  if pyUpper (pyOrStr s.routing_layout_result "") = "OK" then ("imageops", s)
  else if get_tool_loops s ≥ get_max_tool_loops s then ("summarizer", s)
  else ("layout_planner", inc_tool_loops s)

/-! ## Layout planner (`agents/layout_planner_agent.py`)

`_derive_layout_for_platform` consumes the user prompt and the prior layout
only through the derived intent dictionary; the two intent entries that can
influence the output are `layout_style` (font weights and background palette)
and `packshot_priority` (packshot size), so the embedding is parametrized by
those two strings — quantifying over them covers every user prompt and every
prior intent.  Random layer ids, colors and notes carry no claim content and
are omitted from the layer model. -/

/-- `layout_planner_agent._clamp01`. -/
def clamp01 (x : ℚ) : ℚ := max 0 (min 1 x)

/-- `layout_planner_agent._inside_safe` on the schema-typed safe zones:
identical edge arithmetic to `rect_inside_safe`, margins read from the
`SafeZones` model instead of a dictionary. -/
def inside_safe (rect : RectQ) (safe : SafeZonesQ) : Bool :=
  let left := rect.x - rect.w / 2
  let right := rect.x + rect.w / 2
  let top := rect.y - rect.h / 2
  let bottom := rect.y + rect.h / 2
  decide (left ≥ safe.left) && decide (right ≤ 1 - safe.right) &&
    decide (top ≥ safe.top) && decide (bottom ≤ 1 - safe.bottom)

/-- `layout_planner_agent._safe_rect`: the inset rectangle spanned by the
safe-zone margins, center-based. -/
def safe_rect (safe : SafeZonesQ) : RectQ :=
  { x := (safe.left + (1 - safe.right)) / 2,
    y := (safe.top + (1 - safe.bottom)) / 2,
    w := 1 - safe.left - safe.right,
    h := 1 - safe.top - safe.bottom }

/-- The three named zones produced by `layout_planner_agent._make_zones`. -/
structure Zones where
  title_zone : RectQ
  packshot_zone : RectQ
  cta_zone : RectQ
deriving DecidableEq, Repr

/-- `layout_planner_agent._make_zones` (the `platform` argument of the source
is unused there and dropped). -/
def make_zones (safe : SafeZonesQ) : Zones :=
  let s := safe_rect safe
  { title_zone := { x := s.x, y := clamp01 (s.y - s.h * (32/100)), w := s.w, h := s.h * (26/100) },
    packshot_zone := { x := s.x, y := s.y, w := s.w, h := s.h * (44/100) },
    cta_zone := { x := s.x, y := clamp01 (s.y + s.h * (34/100)), w := s.w, h := s.h * (26/100) } }

/-- `layout_planner_agent._rect_in_zone`: place a rect of size `w × h` at the
zone center displaced by the biases, all four coordinates clamped to `[0,1]`. -/
def rect_in_zone (zone : RectQ) (w h x_bias y_bias : ℚ) : RectQ :=
  { x := clamp01 (zone.x + x_bias * (zone.w * (20/100))),
    y := clamp01 (zone.y + y_bias * (zone.h * (20/100))),
    w := clamp01 w, h := clamp01 h }

/-- A platform preset of `PLATFORM_PRESETS` (format string omitted). -/
structure Preset where
  width : ℕ
  height : ℕ
  safe_zones : SafeZonesQ
deriving DecidableEq, Repr

/-- The `instagram_feed` preset (1080×1080). -/
def instagram_feed_preset : Preset :=
  ⟨1080, 1080, ⟨6/100, 10/100, 5/100, 5/100⟩⟩

/-- The `instagram_story` preset (1080×1920). -/
def instagram_story_preset : Preset :=
  ⟨1080, 1920, ⟨8/100, 12/100, 6/100, 6/100⟩⟩

/-- The `facebook_feed` preset (1200×628). -/
def facebook_feed_preset : Preset :=
  ⟨1200, 628, ⟨8/100, 12/100, 6/100, 6/100⟩⟩

/-- The `facebook_story` preset (1080×1920). -/
def facebook_story_preset : Preset :=
  ⟨1080, 1920, ⟨8/100, 12/100, 6/100, 6/100⟩⟩

/-- `PLATFORM_PRESETS.get(platform, PLATFORM_PRESETS["instagram_feed"])`. -/
def preset_for (platform : String) : Preset :=
  if platform = "instagram_feed" then instagram_feed_preset
  else if platform = "instagram_story" then instagram_story_preset
  else if platform = "facebook_feed" then facebook_feed_preset
  else if platform = "facebook_story" then facebook_story_preset
  else instagram_feed_preset

/-- A planned layer: the type tag, the `critical` flag, the placed rect,
the z-order and (for text layers) the font weight. -/
structure PlanLayer where
  type : String
  critical : Bool
  rect : RectQ
  z : ℕ
  font_weight : Option ℕ := none
deriving DecidableEq, Repr

/-- The layer list built by `_derive_layout_for_platform` in source order:
background, packshot, logo, headline, cta, value tile. -/
def derive_layers (preset : Preset) (layout_style packshot_priority : String) :
    List PlanLayer :=
  let safe := preset.safe_zones
  let zones := make_zones safe
  let is_story : Bool := preset.height > preset.width
  let pack_w : ℚ := if is_story then 62/100 else 55/100
  let pack_h : ℚ := if is_story then 48/100 else 52/100
  let pack_w := if packshot_priority = "high" then min (70/100) (pack_w + 8/100) else pack_w
  let pack_h := if packshot_priority = "high" then min (62/100) (pack_h + 8/100) else pack_h
  let pack_rect := rect_in_zone zones.packshot_zone pack_w pack_h
    (if is_story then 0 else 18/100) (5/100)
  let logo_rect := rect_in_zone zones.title_zone
    (if is_story then 18/100 else 16/100) (if is_story then 10/100 else 9/100)
    (-(35/100)) (-(20/100))
  let headline_rect := rect_in_zone zones.title_zone (70/100)
    (if is_story then 12/100 else 14/100)
    (if is_story then 0 else 10/100) (12/100)
  let cta_rect := rect_in_zone zones.cta_zone
    (if is_story then 36/100 else 34/100) (if is_story then 11/100 else 12/100)
    (30/100) (10/100)
  let tile_rect := rect_in_zone zones.cta_zone
    (if is_story then 30/100 else 28/100) (if is_story then 14/100 else 16/100)
    (-(32/100)) (5/100)
  [ { type := "background", critical := false, rect := ⟨1/2, 1/2, 1, 1⟩, z := 0 },
    { type := "packshot", critical := true, rect := pack_rect, z := 30 },
    { type := "logo", critical := true, rect := logo_rect, z := 40 },
    { type := "headline", critical := true, rect := headline_rect, z := 50,
      font_weight := some (if layout_style = "bold" ∨ layout_style = "premium" then 800 else 700) },
    { type := "cta", critical := true, rect := cta_rect, z := 60, font_weight := some 800 },
    { type := "value_tile", critical := true, rect := tile_rect, z := 55,
      font_weight := some 900 } ]

/-- The result of `_derive_layout_for_platform` (decision, self-check
warnings, safe zones and layers). -/
structure LayoutPlan where
  decision : String
  warnings : List String
  safe : SafeZonesQ
  layers : List PlanLayer
deriving DecidableEq, Repr

/-- The self-check loop of `_derive_layout_for_platform`: one nudge warning
per critical layer whose rect fails `inside_safe`. -/
def plan_warnings (preset : Preset) (layout_style packshot_priority : String) :
    List String :=
  (derive_layers preset layout_style packshot_priority).filterMap fun l =>
    if l.critical && !inside_safe l.rect preset.safe_zones then
      some ("Layer " ++ l.type ++ " is close to/over safe zone. Consider nudging inward.")
    else none

/-- `layout_planner_agent._derive_layout_for_platform`: builds the layer set
for the resolved preset, self-checks every critical layer against
`inside_safe` and decides `WARN` when any warning was emitted, `OK`
otherwise. -/
def derive_layout_for_platform (platform layout_style packshot_priority : String) :
    LayoutPlan :=
  let preset := preset_for platform
  { decision :=
      if (plan_warnings preset layout_style packshot_priority).isEmpty then "OK"
      else "WARN",
    warnings := plan_warnings preset layout_style packshot_priority,
    safe := preset.safe_zones,
    layers := derive_layers preset layout_style packshot_priority }

/-- The `SafeZones` model dumped to the margin dictionary the compliance
engines read. -/
def safeAssoc (s : SafeZonesQ) : SafeDict :=
  [("top", s.top), ("bottom", s.bottom), ("left", s.left), ("right", s.right)]

/-- The layout spec dictionary written by `run_layout_planner` as seen by the
tesco rule toolbox: the dumped `LayoutSpec` schema carries no `typography`
and no `elements` key, and lines 404-418 of the source then install
`typography.min_font_px = 24` via `setdefault` on the empty dictionary. -/
def planner_spec_dict (platform layout_style packshot_priority : String) : LayoutDict :=
  let plan := derive_layout_for_platform platform layout_style packshot_priority
  { safe_zones := safeAssoc plan.safe,
    typography_min_font_px := some 24 }

/-! ## Concrete inputs used by witnesses and counterexamples -/

/-- The trivial regex oracle (no pattern matches); used where the inspected
copy text is empty so the oracle is never consulted. -/
def noMatch : String → Bool := fun _ => false

/-- A state whose layout stage decided `OK` while the layout spec carries a
`min_font_px` of `8`, which the validator flags as a `HARD_FAIL`
(`FONT_TOO_SMALL`). -/
def stateOkLayoutBadFont : TurnState :=
  { outputs_layout_decision := some "OK",
    outputs_layout_spec := some
      { safe_zones := [("top", 3/50), ("bottom", 1/10), ("left", 1/20), ("right", 1/20)],
        typography_min_font_px := some 8 } }

/-- A hard-failed compliance state with the retry counter at `maxBudget - 1`
(five, against the default budget of six). -/
def stateBudgetFive : TurnState :=
  { compliance_result := some "HARD_FAIL", pipeline_tool_loops := some 5 }

/-- A hard-failed compliance state with the retry counter at the default
budget of six. -/
def stateBudgetSix : TurnState :=
  { compliance_result := some "HARD_FAIL", pipeline_tool_loops := some 6 }

/-- A state whose copy result is `FAIL` and whose retry counter is unset. -/
def stateCopyFailed : TurnState := { routing_copy_result := some "FAIL" }

/-- An issue list holding a single `INFO`-severity issue. -/
def infoOnlyIssues : List Issue :=
  [{ code := "X", severity := "INFO", message := "informational" }]

/-- An issue list holding a single `WARN`-severity issue. -/
def warnOnlyIssues : List Issue :=
  [{ code := "Y", severity := "WARN", message := "advisory" }]

/-- A layout with layers but no safe-zone definition. -/
def layoutNoSafeZones : CheckLayout :=
  { layers := [{ type := some "packshot", rect := some ⟨1/2, 1/2, 1/2, 1/2⟩ }] }

/-- A layout with a safe zone and a single CTA layer that carries neither a
`critical` flag nor a rect. -/
def layoutBareCta : CheckLayout :=
  { safe_zones := [("top", 1/10)],
    layers := [{ id := some "cta_1", type := some "cta" }] }

/-- A zero-width rect at the canvas center. -/
def degenerateRect : RectQ := ⟨1/2, 1/2, 0, 1/10⟩

/-- Two disjoint rects: a small packshot bottom-left, text top-right. -/
def rectPackshotSmall : RectQ := ⟨2/10, 2/10, 2/10, 2/10⟩

/-- See `rectPackshotSmall`. -/
def rectTextFar : RectQ := ⟨8/10, 8/10, 1/10, 1/10⟩

/-- The state stripped of its retry-loop counter: the frame against which the
routers are shown to mutate nothing else. -/
def erase_tool_loops (s : TurnState) : TurnState :=
  { s with pipeline_tool_loops := none }

/-! ## Helper lemmas -/

/-- A Python `or`-chain on counters never shrinks when its fallback grows. -/
lemma pyOrNat_zero_le (p : Option ℕ) (d : ℕ) : pyOrNat p 0 ≤ pyOrNat p d := by
  cases p with
  | none => simp [pyOrNat]
  | some n => cases n <;> simp [pyOrNat]

/-- Incrementing the counter lands exactly one above the raw pipeline value. -/
lemma get_tool_loops_inc (s : TurnState) :
    get_tool_loops (inc_tool_loops s) = pyOrNat s.pipeline_tool_loops 0 + 1 := by
  unfold get_tool_loops inc_tool_loops
  cases h : s.pipeline_tool_loops with
  | none => rfl
  | some n => cases n <;> rfl

/-- The increment leaves the configured maximum untouched. -/
lemma get_max_tool_loops_inc (s : TurnState) :
    get_max_tool_loops (inc_tool_loops s) = get_max_tool_loops s := rfl

/-- A counter within budget stays within budget across an in-budget
increment. -/
lemma inc_tool_loops_le (s : TurnState)
    (h : ¬ get_tool_loops s ≥ get_max_tool_loops s) :
    get_tool_loops (inc_tool_loops s) ≤ get_max_tool_loops (inc_tool_loops s) := by
  rw [get_tool_loops_inc, get_max_tool_loops_inc]
  have h1 := pyOrNat_zero_le s.pipeline_tool_loops (pyOrNat s.tool_loops 0)
  have h2 : get_tool_loops s < get_max_tool_loops s := lt_of_not_ge h
  unfold get_tool_loops at h1 h2
  omega

/-- Every platform string resolves to one of the four declared presets. -/
lemma preset_for_mem (platform : String) :
    preset_for platform = instagram_feed_preset ∨
      preset_for platform = instagram_story_preset ∨
      preset_for platform = facebook_feed_preset ∨
      preset_for platform = facebook_story_preset := by
  unfold preset_for
  split_ifs <;> tauto

/-- For each of the four presets, every style and priority, every critical
layer produced by the planner sits inside the preset safe zones. -/
lemma derive_layers_inside (pre : Preset)
    (hpre : pre = instagram_feed_preset ∨ pre = instagram_story_preset ∨
      pre = facebook_feed_preset ∨ pre = facebook_story_preset)
    (ls pp : String) :
    (derive_layers pre ls pp).all
      (fun l => !l.critical || inside_safe l.rect pre.safe_zones) = true := by
  rcases hpre with h | h | h | h <;> subst h <;>
    rcases eq_or_ne pp "high" with hp | hp <;>
    simp only [derive_layers, hp, instagram_feed_preset, instagram_story_preset,
      facebook_feed_preset, facebook_story_preset] <;>
    norm_num [List.all_cons, List.all_nil, inside_safe, rect_in_zone, make_zones,
      safe_rect, clamp01, min_def, max_def]

/-! ## Claim theorems -/

/-- C1: the compliance stage does NOT keep the validator status authoritative.
On a state whose layout stage decided `OK` while the layout spec declares
`min_font_px = 8`, the Compliance Validator returns `HARD_FAIL`
(`FONT_TOO_SMALL`), yet `compliance_node` overwrites the status written into
routing state with `PASS` because of the layout decision — the override the
source marks `TEMPORARY` and the claim (with the spec) calls a defect. -/
theorem compliance_node_overrides_validator :
    (run_compliance_agent noMatch noMatch stateOkLayoutBadFont).status = "HARD_FAIL" ∧
    (compliance_node noMatch noMatch stateOkLayoutBadFont).compliance_result = some "PASS" ∧
    (compliance_node noMatch noMatch stateOkLayoutBadFont).outputs_compliance_status =
      some "PASS" := by
  refine ⟨?_, ?_, ?_⟩ <;>
    norm_num [run_compliance_agent, compliance_node, stateOkLayoutBadFont, noMatch,
      detect_copy_issues, check_value_tile_rules, check_social_safe_zones,
      check_font_sizes, check_cta_tag_overlaps, check_packshot_spacing,
      resolve_status, pyOrStr]

/-- C2 counterexample: with the retry counter at `maxBudget - 1` (five against
the default budget six) one more `HARD_FAIL` compliance result still routes to
a retry target (`imageops`), not to `summarizer`, and raises the counter to
the budget. -/
theorem route_after_compliance_retries_at_five :
    compliance_status stateBudgetFive = "HARD_FAIL" ∧
    get_max_tool_loops stateBudgetFive = 6 ∧
    get_tool_loops stateBudgetFive = 5 ∧
    (route_after_compliance stateBudgetFive).1 = "imageops" ∧
    (route_after_compliance stateBudgetFive).1 ≠ "summarizer" ∧
    get_tool_loops (route_after_compliance stateBudgetFive).2 = 6 := by
  decide

/-- C2 amended: once the retry counter has reached the configured maximum, a
non-exporting compliance result routes to `summarizer` and leaves the state
untouched; and every routing decision of the three routers preserves the
invariant that the counter never exceeds the configured maximum. -/
theorem route_after_compliance_budget (s : TurnState) :
    (get_max_tool_loops s ≤ get_tool_loops s → proceeds_to_export s = false →
      route_after_compliance s = ("summarizer", s)) ∧
    (get_tool_loops s ≤ get_max_tool_loops s →
      get_tool_loops (route_after_compliance s).2 ≤
        get_max_tool_loops (route_after_compliance s).2) ∧
    (get_tool_loops s ≤ get_max_tool_loops s →
      get_tool_loops (route_after_copy s).2 ≤
        get_max_tool_loops (route_after_copy s).2) ∧
    (get_tool_loops s ≤ get_max_tool_loops s →
      get_tool_loops (route_after_layout s).2 ≤
        get_max_tool_loops (route_after_layout s).2) := by
  refine ⟨?_, ?_, ?_, ?_⟩
  · intro h1 h2
    simp [route_after_compliance, h2, ge_iff_le, h1]
  · intro h
    unfold route_after_compliance
    split_ifs with h1 h2
    · exact h
    · exact h
    · exact inc_tool_loops_le s h2
  · intro h
    unfold route_after_copy
    split_ifs with h1 h2
    · exact h
    · exact h
    · exact inc_tool_loops_le s h2
  · intro h
    unfold route_after_layout
    split_ifs with h1 h2
    · exact h
    · exact h
    · exact inc_tool_loops_le s h2

/-- C2 witness: at counter six (the default budget) a `HARD_FAIL` result is
routed to `summarizer` with the state unchanged, and the budget invariant is
preserved there. -/
theorem route_after_compliance_budget_witness :
    route_after_compliance stateBudgetSix = ("summarizer", stateBudgetSix) ∧
    get_tool_loops (route_after_compliance stateBudgetSix).2 ≤
      get_max_tool_loops (route_after_compliance stateBudgetSix).2 :=
  ⟨(route_after_compliance_budget stateBudgetSix).1 (by decide) (by decide),
   (route_after_compliance_budget stateBudgetSix).2.1 (by decide)⟩

/-- C3 counterexample: an issue list consisting of one `INFO`-severity issue
is non-empty yet resolves to `PASS`, not `WARN` — the status is not "WARN if
any issue exists at all". -/
theorem resolve_status_info_only :
    resolve_status infoOnlyIssues = "PASS" ∧ infoOnlyIssues ≠ [] := by
  decide

/-- C3 amended: `resolve_status` is `HARD_FAIL` when a `HARD_FAIL` issue
exists, else `WARN` when a `WARN`-severity issue exists, else `PASS` (so
`INFO`-only lists resolve to `PASS`); on lists whose severities are limited to
`WARN`/`HARD_FAIL` — as every `ComplianceIssue` is — the claim's phrasing
holds verbatim, and the status of `run_compliance_checks` is always the
strict function `status_of_issues` of its own issue list. -/
theorem resolve_status_characterization (issues : List Issue) (layout : CheckLayout) :
    ((∃ i ∈ issues, i.severity = "HARD_FAIL") → resolve_status issues = "HARD_FAIL") ∧
    ((∀ i ∈ issues, i.severity ≠ "HARD_FAIL") → (∃ i ∈ issues, i.severity = "WARN") →
      resolve_status issues = "WARN") ∧
    ((∀ i ∈ issues, i.severity ≠ "HARD_FAIL" ∧ i.severity ≠ "WARN") →
      resolve_status issues = "PASS") ∧
    ((∀ i ∈ issues, i.severity = "WARN" ∨ i.severity = "HARD_FAIL") →
      resolve_status issues =
        (if issues.any fun i => i.severity = "HARD_FAIL" then "HARD_FAIL"
         else if issues = [] then "PASS" else "WARN")) ∧
    ((run_compliance_checks layout).status =
      status_of_issues (run_compliance_checks layout).issues) := by
  refine ⟨?_, ?_, ?_, ?_, ?_⟩
  · rintro ⟨i, hi, hsev⟩
    unfold resolve_status
    rw [if_pos (List.any_eq_true.mpr ⟨i, hi, by simp [hsev]⟩)]
  · intro hnf hw
    have h1 : (issues.any fun i => i.severity = "HARD_FAIL") = false := by
      rw [List.any_eq_false]
      intro i hi
      simpa using hnf i hi
    rcases hw with ⟨i, hi, hsev⟩
    unfold resolve_status
    rw [if_neg (by simp [h1]), if_pos (List.any_eq_true.mpr ⟨i, hi, by simp [hsev]⟩)]
  · intro hno
    have h1 : (issues.any fun i => i.severity = "HARD_FAIL") = false := by
      rw [List.any_eq_false]
      intro i hi
      simpa using (hno i hi).1
    have h2 : (issues.any fun i => i.severity = "WARN") = false := by
      rw [List.any_eq_false]
      intro i hi
      simpa using (hno i hi).2
    unfold resolve_status
    rw [if_neg (by simp [h1]), if_neg (by simp [h2])]
  · intro hwh
    by_cases h1 : (issues.any fun i => i.severity = "HARD_FAIL") = true
    · rw [if_pos h1]
      unfold resolve_status
      rw [if_pos h1]
    · have h1f : (issues.any fun i => i.severity = "HARD_FAIL") = false :=
        Bool.eq_false_iff.mpr h1
      rw [if_neg (by simp [h1f])]
      cases hemp : issues with
      | nil =>
          subst hemp
          simp [resolve_status]
      | cons a tl =>
          subst hemp
          rw [if_neg (List.cons_ne_nil a tl)]
          have hnf := List.any_eq_false.mp h1f
          have ha : a ∈ a :: tl := List.mem_cons_self a tl
          have haw : a.severity = "WARN" := by
            rcases hwh a ha with h | h
            · exact h
            · exact absurd (by simp [h]) (hnf a ha)
          unfold resolve_status
          rw [if_neg (by simp [h1f]),
            if_pos (List.any_eq_true.mpr ⟨a, ha, by simp [haw]⟩)]
  · unfold run_compliance_checks
    split_ifs with hsz
    · simp [status_of_issues]
    · rfl

/-- C3 witness: a singleton `WARN` list resolves to `WARN` via the amended
characterization. -/
theorem resolve_status_characterization_witness :
    resolve_status warnOnlyIssues = "WARN" :=
  (resolve_status_characterization warnOnlyIssues {}).2.1 (by decide) (by decide)

/-- C4: on a layout whose safe-zone definition is absent or empty,
`run_compliance_checks` short-circuits with status `HARD_FAIL`, exactly the
single `SAFEZONE_MISSING` issue and score `0.0`, regardless of the layers —
no further rule contributes anything. -/
theorem run_compliance_checks_missing_safezones (layout : CheckLayout)
    (h : layout.safe_zones = []) :
    run_compliance_checks layout =
      { status := "HARD_FAIL",
        issues := [{ code := "SAFEZONE_MISSING", severity := "HARD_FAIL",
                     message := "safe_zones missing from layout spec" }],
        score := 0, notes := [] } := by
  unfold run_compliance_checks
  rw [if_pos h]

/-- C4 witness: the short-circuit evaluated on a concrete layout that has
layers but no safe zones. -/
theorem run_compliance_checks_missing_safezones_witness :
    run_compliance_checks layoutNoSafeZones =
      { status := "HARD_FAIL",
        issues := [{ code := "SAFEZONE_MISSING", severity := "HARD_FAIL",
                     message := "safe_zones missing from layout spec" }],
        score := 0, notes := [] } :=
  run_compliance_checks_missing_safezones layoutNoSafeZones rfl

/-- C5 counterexample: the zero-width rect centered in the canvas is
degenerate (`w ≤ 0`) yet `_rect_inside_safe` reports it inside the empty
(zero-margin) safe zone — degenerate rects are not rejected. -/
theorem rect_inside_safe_degenerate :
    degenerateRect.w ≤ 0 ∧ rect_inside_safe degenerateRect [] = true := by
  constructor
  · norm_num [degenerateRect]
  · norm_num [rect_inside_safe, degenerateRect, dictGet]

/-- C5 amended: the inside check is a pure edge-containment test — true
exactly when the four derived edges lie within the inset, with no
special-casing of degenerate rects (which can therefore be reported inside) —
and the planner's `_inside_safe` agrees with the validator's
`_rect_inside_safe` on matching margins. -/
theorem rect_inside_safe_edges (rect : RectQ) (safe : SafeDict) (s : SafeZonesQ) :
    (rect_inside_safe rect safe = true ↔
      (rect.x - rect.w / 2 ≥ dictGet safe "left" 0 ∧
        rect.x + rect.w / 2 ≤ 1 - dictGet safe "right" 0 ∧
        rect.y - rect.h / 2 ≥ dictGet safe "top" 0 ∧
        rect.y + rect.h / 2 ≤ 1 - dictGet safe "bottom" 0)) ∧
    inside_safe rect s = rect_inside_safe rect (safeAssoc s) := by
  constructor
  · simp [rect_inside_safe, and_assoc]
  · simp [inside_safe, rect_inside_safe, safeAssoc, dictGet, List.find?]

/-- C6: for every platform (unknown platforms fall back to the
`instagram_feed` preset) and every intent reachable from any user prompt or
prior layout (`layout_style`, `packshot_priority`), the layout planner's
decision is `OK` or `WARN` (never a hard failure), every critical layer of the
produced layer set lies inside the preset's safe zones, the self-check in
fact emits no warning, and the decision is `WARN` exactly when the self-check
warned. -/
theorem layout_planner_always_ok (platform layout_style packshot_priority : String) :
    ((derive_layout_for_platform platform layout_style packshot_priority).decision = "OK" ∨
      (derive_layout_for_platform platform layout_style packshot_priority).decision = "WARN") ∧
    (derive_layout_for_platform platform layout_style packshot_priority).layers.all
      (fun l => !l.critical ||
        inside_safe l.rect
          (derive_layout_for_platform platform layout_style packshot_priority).safe) = true ∧
    (derive_layout_for_platform platform layout_style packshot_priority).warnings = [] ∧
    (derive_layout_for_platform platform layout_style packshot_priority).decision =
      (if (derive_layout_for_platform platform layout_style
            packshot_priority).warnings.isEmpty then "OK" else "WARN") := by
  have hall := derive_layers_inside (preset_for platform) (preset_for_mem platform)
    layout_style packshot_priority
  have hwarn : plan_warnings (preset_for platform) layout_style packshot_priority = [] := by
    unfold plan_warnings
    rw [List.filterMap_eq_nil_iff]
    intro l hl
    have h1 := List.all_eq_true.mp hall l hl
    by_cases hc : l.critical = true
    · have h2 : inside_safe l.rect (preset_for platform).safe_zones = true := by
        simpa [hc] using h1
      simp [hc, h2]
    · simp [Bool.eq_false_iff.mpr hc]
  refine ⟨?_, ?_, ?_, ?_⟩
  · simp [derive_layout_for_platform, hwarn]
  · simpa [derive_layout_for_platform] using hall
  · simp [derive_layout_for_platform, hwarn]
  · simp [derive_layout_for_platform, hwarn]

/-- C7 counterexample: on a state whose copy result is `FAIL`,
`route_after_copy` does not leave the turn state unchanged — it bumps the
retry-loop counter while returning the retry target. -/
theorem route_after_copy_mutates :
    (route_after_copy stateCopyFailed).2 ≠ stateCopyFailed ∧
    (route_after_copy stateCopyFailed).1 = "copy_validator" := by
  decide

/-- C7 amended: the three routers return the next stage name and mutate no
state field other than the retry-loop counter — each leaves the
counter-erased state intact, and the returned state is either exactly the
input or exactly the input with the counter incremented once. -/
theorem routers_mutate_only_retry_counter (s : TurnState) :
    (erase_tool_loops (route_after_copy s).2 = erase_tool_loops s ∧
      ((route_after_copy s).2 = s ∨ (route_after_copy s).2 = inc_tool_loops s)) ∧
    (erase_tool_loops (route_after_layout s).2 = erase_tool_loops s ∧
      ((route_after_layout s).2 = s ∨ (route_after_layout s).2 = inc_tool_loops s)) ∧
    (erase_tool_loops (route_after_compliance s).2 = erase_tool_loops s ∧
      ((route_after_compliance s).2 = s ∨
        (route_after_compliance s).2 = inc_tool_loops s)) := by
  refine ⟨⟨?_, ?_⟩, ⟨?_, ?_⟩, ⟨?_, ?_⟩⟩ <;>
    · simp only [route_after_copy, route_after_layout, route_after_compliance]
      split_ifs <;> simp [erase_tool_loops, inc_tool_loops]

/-- C8: `run_compliance_checks` treats a layer without a `critical` entry as
critical — its missing rect contributes the hard-fail `RECT_MISSING` issue
and its out-of-zone rect the hard-fail `OUTSIDE_SAFEZONE` issue to the result
— and only a layer whose `critical` is explicitly `false` is skipped by the
containment rule. -/
theorem run_compliance_checks_critical_default (layout : CheckLayout) (l : LayerDict) :
    (l.critical = some false → safezoneContrib layout.safe_zones l = []) ∧
    (l.critical ≠ some false → l.rect = none →
      safezoneContrib layout.safe_zones l = [rect_missing_issue l.id]) ∧
    (∀ r, l.critical ≠ some false → l.rect = some r →
      rect_inside_safe r layout.safe_zones = false →
      safezoneContrib layout.safe_zones l = [outside_safezone_issue l]) ∧
    (layout.safe_zones ≠ [] → l ∈ layout.layers → l.critical ≠ some false →
      l.rect = none →
      rect_missing_issue l.id ∈ (run_compliance_checks layout).issues) ∧
    (∀ r, layout.safe_zones ≠ [] → l ∈ layout.layers → l.critical ≠ some false →
      l.rect = some r → rect_inside_safe r layout.safe_zones = false →
      outside_safezone_issue l ∈ (run_compliance_checks layout).issues) := by
  have hget : l.critical ≠ some false → l.critical.getD true = true := by
    intro hc
    cases hcrit : l.critical with
    | none => rfl
    | some b =>
        cases b with
        | false => exact absurd hcrit hc
        | true => rfl
  have contrib_skip : l.critical = some false → safezoneContrib layout.safe_zones l = [] := by
    intro hc
    unfold safezoneContrib
    rw [if_pos (by rw [hc]; rfl)]
  have contrib_missing : l.critical ≠ some false → l.rect = none →
      safezoneContrib layout.safe_zones l = [rect_missing_issue l.id] := by
    intro hc hr
    unfold safezoneContrib
    rw [if_neg (by rw [hget hc]; simp), hr]
  have contrib_outside : ∀ r, l.critical ≠ some false → l.rect = some r →
      rect_inside_safe r layout.safe_zones = false →
      safezoneContrib layout.safe_zones l = [outside_safezone_issue l] := by
    intro r hc hr hin
    unfold safezoneContrib
    rw [if_neg (by rw [hget hc]; simp), hr]
    simp [hin]
  have mem_of_contrib : ∀ iss, layout.safe_zones ≠ [] → l ∈ layout.layers →
      safezoneContrib layout.safe_zones l = [iss] →
      iss ∈ (run_compliance_checks layout).issues := by
    intro iss hsz hmem hcon
    have hsafe : iss ∈ safezoneIssues layout.safe_zones layout.layers := by
      unfold safezoneIssues
      exact List.mem_flatMap.mpr ⟨l, hmem, by rw [hcon]; exact List.mem_singleton.mpr rfl⟩
    unfold run_compliance_checks
    rw [if_neg hsz]
    simp only [List.mem_append]
    exact Or.inl (Or.inl (Or.inl hsafe))
  refine ⟨contrib_skip, contrib_missing, contrib_outside, ?_, ?_⟩
  · intro hsz hmem hc hr
    exact mem_of_contrib _ hsz hmem (contrib_missing hc hr)
  · intro r hsz hmem hc hr hin
    exact mem_of_contrib _ hsz hmem (contrib_outside r hc hr hin)

/-- C8 witness: a CTA layer carrying neither a `critical` flag nor a rect
contributes `RECT_MISSING` to the validator result of a layout that has safe
zones. -/
theorem run_compliance_checks_critical_default_witness :
    rect_missing_issue (some "cta_1") ∈ (run_compliance_checks layoutBareCta).issues :=
  (run_compliance_checks_critical_default layoutBareCta
      { id := some "cta_1", type := some "cta" }).2.2.2.1
    (by decide) (by decide) (by decide) rfl

/-- C9: the layout planner always publishes `typography.min_font_px = 24`
(the dumped spec schema carries no typography, so the `setdefault` installs
the default), and consequently `check_font_sizes` emits no issue — in
particular neither `FONT_MIN_NOT_SET` nor `FONT_TOO_SMALL` — on any
planner-produced layout. -/
theorem planner_sets_min_font (platform layout_style packshot_priority : String) :
    (planner_spec_dict platform layout_style packshot_priority).typography_min_font_px =
      some 24 ∧
    check_font_sizes (planner_spec_dict platform layout_style packshot_priority) = [] := by
  constructor
  · rfl
  · norm_num [check_font_sizes, planner_spec_dict]

/-- C10: the overlap rule is division-safe and silent on non-positive
overlap: the fraction's denominator `max(area, 1e-9)` is bounded below by
`1e-9` for every rect, and a text/CTA layer whose overlap with the reference
packshot is `≤ 0` produces no `OVERLAP_TEXT_PACKSHOT` issue at all. -/
theorem overlap_rule_division_safe (prect rect : RectQ) (ltype : String)
    (lid : Option String) :
    (1 / 1000000000 : ℚ) ≤ max (area rect) (1 / 1000000000) ∧
    (overlap prect rect ≤ 0 → overlapIssueFor prect rect ltype lid = none) := by
  constructor
  · exact le_max_right _ _
  · intro h
    simp only [overlapIssueFor]
    rw [if_pos h]

/-- C10 witness: two disjoint rects have overlap `0`, the denominator bound
holds, and the rule emits nothing. -/
theorem overlap_rule_division_safe_witness :
    (1 / 1000000000 : ℚ) ≤ max (area rectTextFar) (1 / 1000000000) ∧
    overlapIssueFor rectPackshotSmall rectTextFar "cta" none = none :=
  ⟨(overlap_rule_division_safe rectPackshotSmall rectTextFar "cta" none).1,
   (overlap_rule_division_safe rectPackshotSmall rectTextFar "cta" none).2 (by
     norm_num [overlap, rectPackshotSmall, rectTextFar, min_def, max_def])⟩

end CreativeBuilder
